import Mathlib

/-!
Verification of the `ariel_on_sheets` orchestration layer: a shallow
embedding of the two cloud functions
(`src/cloud_functions/splitter/main.py` and
`src/cloud_functions/video_dubber/main.py`).

Modelling conventions:
* Python dicts become association lists (`List (String × _)`); dict
  assignment (`d[k] = v`) overwrites the first binding of `k` in place
  and appends when absent, exactly as an (always unique-keyed) Python
  dict behaves.
* Exceptions become `Except String _`; the `String` is `str(e)`.
* External effects (Pub/Sub publish, GCS download/upload, the `ariel`
  dubbing engine, JSON / `ast.literal_eval` parsing) are oracles passed
  in as function arguments: each oracle value records whether the call
  returns normally (and with what value) or raises (and with what
  message).  Writes to the spreadsheet are modelled as emitted
  `SheetWrite` records; the claims about status reporting are claims
  about these emitted records.
-/

namespace Ariel

/-- Status constants of both cloud functions. -/
def STATUS_PROCESSING : String := "PROCESSING"

def STATUS_FAILED : String := "FAILED"

def STATUS_SUCCESS : String := "OK"

/-- The fixed fallback hint used by both functions when an exception text is
uninformative. -/
def serviceAccountHint : String :=
  "Check you shared the spreadsheet with the service account"

/-- Both functions build the FAILED message as
`str(e) if len(str(e)) > 1 else "Check you shared the spreadsheet with the service account"`. -/
def errMessage (e : String) : String :=
  if 1 < e.length then e else serviceAccountHint

/-- One update of a row's three status cells: `_update_google_sheet` writes
`[[status, now, message]]` into the status range of the given 1-based row. -/
structure SheetWrite where
  row : Nat
  status : String
  message : String
deriving Repr, DecidableEq

/-- A value stored in a `line_config` dict: sheet cells are strings, the
injected `row_num` is a Python int. -/
inductive SVal where
  | s : String → SVal
  | n : Nat → SVal
deriving Repr, DecidableEq

/-- A Python dict of per-row configuration. -/
abbrev Dict := List (String × SVal)

/-- Python dict assignment `d[k] = v`: overwrite the (first) binding of `k`
in place, append `(k, v)` when `k` is absent. -/
def dictSet : Dict → String → SVal → Dict
  | [], k, v => [(k, v)]
  | (k2, v2) :: tl, k, v =>
    if k2 = k then (k, v) :: tl else (k2, v2) :: dictSet tl k v

/-- The splitter's fixed `STATUS_COLUMNS` mapping. -/
structure StatusColumns where
  status_column : String
  updated_at_column : String
  message_column : String
deriving Repr, DecidableEq

def STATUS_COLUMNS : StatusColumns :=
  { status_column := "P", updated_at_column := "Q", message_column := "R" }

/-- The Pub/Sub job payload the splitter builds for one row. -/
structure Payload where
  worksheet_url : String
  line_config : Dict
  tool_config : List (String × String)
  status_columns : StatusColumns
deriving Repr, DecidableEq

/-- What one run of the splitter's `_process_lines` did. -/
structure SplitterResult where
  /-- the status-cell updates, in execution order (one per row, from the
  per-row `finally` block) -/
  writes : List SheetWrite
  /-- payloads whose `_publish_pubsub` call returned normally, in order -/
  published : List Payload
  /-- `row_num` of every row whose publish was attempted, in order -/
  attempts : List Nat
deriving Repr, DecidableEq

/-- The loop body of `_process_lines`, starting at row index `i`.  Per row:
inject `row_num`, build the payload, attempt the publish (oracle `pub`);
on an exception log and set FAILED with `errMessage`; the `finally` block
always writes `(status, message if FAILED else "")` to sheet row `i + 2`. -/
def processLinesFrom (url : String) (tc : List (String × String))
    (pub : Nat → Except String Unit) : Nat → List Dict → SplitterResult
  | _, [] => ⟨[], [], []⟩
  | i, lc :: rest =>
    let lc2 := dictSet lc "row_num" (SVal.n i)
    let payload : Payload :=
      { worksheet_url := url, line_config := lc2, tool_config := tc
        status_columns := STATUS_COLUMNS }
    let r := processLinesFrom url tc pub (i + 1) rest
    match pub i with
    | .ok _ =>
      ⟨⟨i + 2, STATUS_PROCESSING, ""⟩ :: r.writes, payload :: r.published,
        i :: r.attempts⟩
    | .error e =>
      ⟨⟨i + 2, STATUS_FAILED, errMessage e⟩ :: r.writes, r.published,
        i :: r.attempts⟩

/-- `_process_lines`: enumerate the dubbing configuration from row index 0. -/
def processLines (url : String) (tc : List (String × String))
    (pub : Nat → Except String Unit) (dubbing_config : List Dict) :
    SplitterResult :=
  processLinesFrom url tc pub 0 dubbing_config

/-- The merge step of `_read_dubbing_config_from_google_sheet`: for every
default key `k`, `line[k] = default_config[k] if (k not in row or not row[k])
else row[k]` (an empty-string cell is falsy). -/
def mergedLine (default_config row : List (String × String)) :
    List (String × String) :=
  default_config.map (fun kv =>
    (kv.1, match row.lookup kv.1 with
      | none => kv.2
      | some v => if v = "" then kv.2 else v))

/-- `_read_dubbing_config_from_google_sheet`: one merged line per data row. -/
def readDubbingConfig (default_config : List (String × String))
    (rows : List (List (String × String))) : List (List (String × String)) :=
  rows.map (mergedLine default_config)

/-! Helper lemmas about the splitter model. -/

theorem dictSet_lookup_self (d : Dict) (k : String) (v : SVal) :
    (dictSet d k v).lookup k = some v := by
  induction d with
  | nil => simp [dictSet]
  | cons hd tl ih =>
    obtain ⟨k2, v2⟩ := hd
    by_cases h : k2 = k
    · simp [dictSet, h]
    · have hne : (k == k2) = false := by simp [Ne.symm h]
      simp [dictSet, h, List.lookup_cons, hne, ih]

theorem processLinesFrom_attempts (url : String) (tc : List (String × String))
    (pub : Nat → Except String Unit) :
    ∀ (cfg : List Dict) (s : Nat),
      (processLinesFrom url tc pub s cfg).attempts = List.range' s cfg.length := by
  intro cfg
  induction cfg with
  | nil => intro s; rfl
  | cons lc rest ih =>
    intro s
    simp only [processLinesFrom, List.length_cons, List.range'_succ]
    cases hp : pub s <;> simp [hp, ih (s + 1)]

theorem processLinesFrom_writes_length (url : String) (tc : List (String × String))
    (pub : Nat → Except String Unit) :
    ∀ (cfg : List Dict) (s : Nat),
      (processLinesFrom url tc pub s cfg).writes.length = cfg.length := by
  intro cfg
  induction cfg with
  | nil => intro s; rfl
  | cons lc rest ih =>
    intro s
    simp only [processLinesFrom]
    cases hp : pub s <;> simp [hp, ih (s + 1)]

theorem processLinesFrom_writes_get? (url : String) (tc : List (String × String))
    (pub : Nat → Except String Unit) :
    ∀ (cfg : List Dict) (s i : Nat), i < cfg.length →
      (processLinesFrom url tc pub s cfg).writes.get? i =
        some (match pub (s + i) with
          | .ok _ => ⟨s + i + 2, STATUS_PROCESSING, ""⟩
          | .error e => ⟨s + i + 2, STATUS_FAILED, errMessage e⟩) := by
  intro cfg
  induction cfg with
  | nil => intro s i h; simp at h
  | cons lc rest ih =>
    intro s i h
    cases i with
    | zero =>
      simp only [processLinesFrom]
      cases hp : pub s <;> simp [hp]
    | succ n =>
      have hrec := ih (s + 1) n (by simpa using Nat.lt_of_succ_lt_succ h)
      have harith : s + (n + 1) = s + 1 + n := by omega
      rw [harith]
      simp only [processLinesFrom]
      cases hp : pub s <;> simpa [hp] using hrec

theorem processLinesFrom_published_get? (url : String) (tc : List (String × String))
    (pub : Nat → Except String Unit) (hpub : ∀ i, pub i = .ok ()) :
    ∀ (cfg : List Dict) (s i : Nat), i < cfg.length →
      (processLinesFrom url tc pub s cfg).published.get? i =
        some { worksheet_url := url
               line_config := dictSet ((cfg.get? i).getD []) "row_num" (SVal.n (s + i))
               tool_config := tc
               status_columns := STATUS_COLUMNS } := by
  intro cfg
  induction cfg with
  | nil => intro s i h; simp at h
  | cons lc rest ih =>
    intro s i h
    cases i with
    | zero => simp [processLinesFrom, hpub s]
    | succ n =>
      have hrec := ih (s + 1) n (by simpa using Nat.lt_of_succ_lt_succ h)
      have harith : s + (n + 1) = s + 1 + n := by omega
      rw [harith]
      simpa [processLinesFrom, hpub s] using hrec

theorem processLinesFrom_published_length (url : String) (tc : List (String × String))
    (pub : Nat → Except String Unit) (hpub : ∀ i, pub i = .ok ()) :
    ∀ (cfg : List Dict) (s : Nat),
      (processLinesFrom url tc pub s cfg).published.length = cfg.length := by
  intro cfg
  induction cfg with
  | nil => intro s; rfl
  | cons lc rest ih =>
    intro s
    simp [processLinesFrom, hpub s, ih (s + 1)]

theorem mergedLine_lookup (D R : List (String × String))
    (hD : (D.map Prod.fst).Nodup) (k d : String) (h : (k, d) ∈ D) :
    (mergedLine D R).lookup k =
      some (match R.lookup k with
        | none => d
        | some v => if v = "" then d else v) := by
  induction D with
  | nil => cases h
  | cons hd tl ih =>
    obtain ⟨k2, d2⟩ := hd
    simp only [List.map_cons, List.nodup_cons] at hD
    rcases List.mem_cons.1 h with heq | hmem
    · obtain ⟨hk, hd2⟩ := Prod.mk.injEq .. ▸ heq
      subst hk; subst hd2
      simp [mergedLine]
    · have hk : k ≠ k2 := by
        intro hkk
        exact hD.1 (hkk ▸ List.mem_map_of_mem Prod.fst hmem)
      have hne : (k == k2) = false := by simp [hk]
      have := ih hD.2 hmem
      simpa [mergedLine, List.lookup_cons, hne] using this


/-! Claims about the splitter. -/

/-- C2 counterexample: a one-row configuration whose publish succeeds.  The
claim says the splitter writes nothing to the row's status cells on a
successful publish, but the per-row `finally` block writes
`(PROCESSING, "")` to sheet row 2 unconditionally. -/
theorem successful_publish_writes_processing :
    (processLines "url" [("DUBBING_CONFIG", "Jobs")] (fun _ => .ok ())
        [[("video_url", SVal.s "bkt/in.mp4")]]).writes =
      [⟨2, STATUS_PROCESSING, ""⟩]
    ∧ (processLines "url" [("DUBBING_CONFIG", "Jobs")] (fun _ => .ok ())
        [[("video_url", SVal.s "bkt/in.mp4")]]).writes ≠ [] := by
  constructor <;> decide

/-- C2 (amended): the splitter writes the status cells of every row exactly
once, from the per-row `finally` block: `(PROCESSING, "")` after a successful
publish, `(FAILED, errMessage e)` after an exception `e`; sheet row is the
0-based row index plus 2. -/
theorem splitter_always_writes_in_finally (url : String)
    (tc : List (String × String)) (pub : Nat → Except String Unit)
    (cfg : List Dict) :
    (processLines url tc pub cfg).writes.length = cfg.length
    ∧ ∀ i, i < cfg.length →
        (processLines url tc pub cfg).writes.get? i =
          some (match pub i with
            | .ok _ => ⟨i + 2, STATUS_PROCESSING, ""⟩
            | .error e => ⟨i + 2, STATUS_FAILED, errMessage e⟩) := by
  constructor
  · exact processLinesFrom_writes_length url tc pub cfg 0
  · intro i hi
    simpa using processLinesFrom_writes_get? url tc pub cfg 0 i hi

/-- C3: for every default template `D` (with the unique keys a Python dict
has) and sheet record `R`, the merged line takes `R`'s value on every default
key present in `R` with a non-empty value and the default otherwise
(missing and empty string both count as unset); keys of the result are
exactly the keys of `D`, so extra columns of `R` are ignored; and merging
the empty record yields exactly `D`. -/
theorem merged_config_uses_row_else_default (D R : List (String × String))
    (hD : (D.map Prod.fst).Nodup) :
    mergedLine D [] = D
    ∧ (mergedLine D R).map Prod.fst = D.map Prod.fst
    ∧ (∀ k d v, (k, d) ∈ D → R.lookup k = some v → v ≠ "" →
        (mergedLine D R).lookup k = some v)
    ∧ (∀ k d, (k, d) ∈ D → (R.lookup k = none ∨ R.lookup k = some "") →
        (mergedLine D R).lookup k = some d) := by
  refine ⟨?_, ?_, ?_, ?_⟩
  · simp [mergedLine]
  · simp [mergedLine]
  · intro k d v hkd hlook hne
    rw [mergedLine_lookup D R hD k d hkd, hlook]
    simp [hne]
  · intro k d hkd hlook
    rcases hlook with hlook | hlook <;>
      simp [mergedLine_lookup D R hD k d hkd, hlook]

/-- C3 witness: a concrete template and record; the record's non-empty value
wins on key `a`. -/
theorem merged_config_example :
    (mergedLine [("a", "1"), ("b", "2")]
        [("a", "x"), ("c", "z"), ("b", "")]).lookup "a" = some "x" :=
  (merged_config_uses_row_else_default [("a", "1"), ("b", "2")]
      [("a", "x"), ("c", "z"), ("b", "")] (by decide)).2.2.1
    "a" "1" "x" (by decide) (by decide) (by decide)

/-- C4: when every publish succeeds, the splitter publishes exactly one
payload per row, in sheet row order, and the payload at 0-based position `i`
carries `row_num = i` in its line config together with the worksheet URL,
the tool config and the status-column layout. -/
theorem one_payload_per_row_with_row_num (url : String)
    (tc : List (String × String)) (pub : Nat → Except String Unit)
    (cfg : List Dict) (hpub : ∀ i, pub i = .ok ()) :
    (processLines url tc pub cfg).published.length = cfg.length
    ∧ ∀ i, i < cfg.length →
        ∃ p, (processLines url tc pub cfg).published.get? i = some p
          ∧ p.line_config.lookup "row_num" = some (SVal.n i)
          ∧ p.worksheet_url = url
          ∧ p.tool_config = tc
          ∧ p.status_columns = STATUS_COLUMNS := by
  constructor
  · exact processLinesFrom_published_length url tc pub hpub cfg 0
  · intro i hi
    refine ⟨_, by simpa using processLinesFrom_published_get? url tc pub hpub cfg 0 i hi,
      ?_, rfl, rfl, rfl⟩
    simpa using dictSet_lookup_self ((cfg.get? i).getD []) "row_num" (SVal.n i)

/-- C4 witness: two rows, all publishes succeed; two payloads, the second
carries `row_num = 1`. -/
theorem payload_per_row_example :
    (processLines "url" [] (fun _ => .ok ())
        [[("video_url", SVal.s "b/a.mp4")], [("video_url", SVal.s "b/c.mp4")]]).published.length = 2 :=
  (one_payload_per_row_with_row_num "url" [] (fun _ => .ok ())
      [[("video_url", SVal.s "b/a.mp4")], [("video_url", SVal.s "b/c.mp4")]]
      (fun _ => rfl)).1

/-- C5: a publish exception on row `i` is caught at row granularity: the
splitter still attempts the publish of every row, so every later row `j` is
attempted too (the attempt list is exactly `0, 1, ..., N-1` whatever the
publish outcomes are). -/
theorem row_failure_does_not_abort_later_rows (url : String)
    (tc : List (String × String)) (pub : Nat → Except String Unit)
    (cfg : List Dict) (i j : Nat) (e : String) (hfail : pub i = .error e)
    (hij : i < j) (hj : j < cfg.length) :
    (processLines url tc pub cfg).attempts = List.range cfg.length
    ∧ j ∈ (processLines url tc pub cfg).attempts := by
  have h0 : (processLines url tc pub cfg).attempts = List.range' 0 cfg.length :=
    processLinesFrom_attempts url tc pub cfg 0
  refine ⟨by rw [h0, List.range_eq_range'], ?_⟩
  rw [h0]
  exact List.mem_range'_1.2 ⟨Nat.zero_le j, by omega⟩

/-- C5 witness: the first row's publish raises, the second row is still
attempted. -/
theorem row_failure_isolation_example :
    1 ∈ (processLines "url" []
        (fun i => if i = 0 then .error "boom" else .ok ())
        [[], []]).attempts :=
  (row_failure_does_not_abort_later_rows "url" []
      (fun i => if i = 0 then .error "boom" else .ok ())
      [[], []] 0 1 "boom" rfl (by decide) (by decide)).2

/-! The worker (`video_dubber/main.py`). -/

/-- Python `str(KeyError(k))` raised by `voices[language]` when the language
has no assigned voice (modelled as the key text; only its non-emptiness
matters downstream). -/
def keyErrorText (k : String) : String := "KeyError: " ++ k

/-- Mutable state of `_process_line`'s per-language loop:
`output_files_paths`, the `dubber` variable (identified by construction
number), how many engines were constructed and how many times
`_configure_dubber` was entered (each call starts by downloading the
source video). -/
structure LoopState where
  uploads : List String
  dubber : Option Nat
  built : Nat
  confCalls : Nat
deriving Repr, DecidableEq

/-- The part of one loop iteration after `dubber = _configure_dubber(...)`
succeeded.  With a non-empty script: evaluate `json.loads(tts_params)`,
look up `voices[language]` (a missing key raises `KeyError`), call
`dub_ad_from_script` through the ElevenLabs or Google wrapper, then build
the output name and upload.  With an empty script: `dub_ad()`, then build
the output name and upload.  Returns the uploaded `gs://` path. -/
def afterConf (tts : Except String String) (voices : List (String × String))
    (dub : Except String Unit) (upl : Except String String)
    (script : List String) (lang : String) : Except String String :=
  match script with
  | [] =>
    match dub with
    | .error e => .error e
    | .ok _ => upl
  | _ :: _ =>
    match tts with
    | .error e => .error e
    | .ok _ =>
      match voices.lookup lang with
      | none => .error (keyErrorText lang)
      | some _ =>
        match dub with
        | .error e => .error e
        | .ok _ => upl

/-- The `for language in target_languages` loop of `_process_line`.
Iteration `i`: call `_configure_dubber` (oracle `conf i`; on success the
`dubber` variable is rebound to a fresh engine); then `afterConf`.  The
first exception aborts the remaining languages and is returned with the
state at that point. -/
def runLangs (conf : Nat → Except String Unit) (tts : Except String String)
    (dub : Nat → Except String Unit) (upl : Nat → Except String String)
    (script : List String) (voices : List (String × String)) :
    List String → Nat → LoopState → LoopState × Option String
  | [], _, st => (st, none)
  | lang :: rest, i, st =>
    match conf i with
    | .error e => ({ st with confCalls := st.confCalls + 1 }, some e)
    | .ok _ =>
      let st1 : LoopState :=
        { st with
          confCalls := st.confCalls + 1
          built := st.built + 1
          dubber := some st.built }
      match afterConf tts voices (dub i) (upl i) script lang with
      | .error e => (st1, some e)
      | .ok p =>
        runLangs conf tts dub upl script voices rest (i + 1)
          { st1 with uploads := st1.uploads ++ [p] }

/-- What one `_process_line` invocation did. -/
structure LineResult where
  /-- the returned status -/
  status : String
  /-- the returned message: the error text (through `errMessage`) when
  FAILED, else the comma-joined upload paths -/
  message : String
  /-- `output_files_paths` at the end -/
  uploads : List String
  /-- engines constructed -/
  built : Nat
  /-- `_configure_dubber` entries (= source-video downloads started) -/
  confCalls : Nat
  /-- the engine whose `clean_up` the `finally` block reached, if any -/
  cleanupTarget : Option Nat
  /-- engine `clean_up` invocations (the `finally` block runs once; when
  `dubber` is still `None` the attribute access raises before any engine
  hook runs) -/
  cleanupCalls : Nat
  /-- the exception the `finally` block swallowed, if any -/
  cleanupError : Option String
deriving Repr, DecidableEq

/-- The `finally` block plus the return of `_process_line`: try
`dubber.clean_up()` swallowing any exception (when `dubber` is `None` the
attribute access itself raises, so no engine hook runs), then return
`(status, message if status == FAILED else ",".join(output_files_paths))`. -/
def finishLine (status message : String) (st : LoopState)
    (cleanup : Except String Unit) : LineResult :=
  let c : Option Nat × Nat × Option String :=
    match st.dubber with
    | none => (none, 0, some "AttributeError")
    | some d =>
      match cleanup with
      | .ok _ => (some d, 1, none)
      | .error e => (some d, 1, some e)
  { status := status
    message :=
      if status = STATUS_FAILED then message
      else String.intercalate "," st.uploads
    uploads := st.uploads
    built := st.built
    confCalls := st.confCalls
    cleanupTarget := c.1
    cleanupCalls := c.2.1
    cleanupError := c.2.2 }

/-- The oracles one `_process_line` invocation consults, each recording
whether the corresponding external call returns or raises:
`scriptR` = `ast.literal_eval(line_config["script"])`,
`voicesR` = `json.loads(line_config["voices"])`,
`langsR` = `ast.literal_eval(line_config["target_language"])`,
`ttsR` = `json.loads(line_config["tts_params"])`,
`confR i` = the iteration-`i` `_configure_dubber` call (download + engine
construction), `dubR i` = the iteration-`i` dub call (`dub_ad_from_script`
via the ElevenLabs wrapper when `useElevenlabs`, else the Google wrapper,
or `dub_ad` when the script is empty — all three are dub calls to the
engine), `uploadR i` = the iteration-`i` `_build_file_name` +
`_upload_file_to_gcs` (returning the `gs://` path), and `cleanupR` =
`dubber.clean_up()`. -/
structure PLEnv where
  scriptR : Except String (List String)
  voicesR : Except String (List (String × String))
  langsR : Except String (List String)
  ttsR : Except String String
  confR : Nat → Except String Unit
  useElevenlabs : Bool
  dubR : Nat → Except String Unit
  uploadR : Nat → Except String String
  cleanupR : Except String Unit

/-- `_process_line`: parse script, voices and target languages (any
exception is caught by the surrounding handler and reduced to FAILED with
`errMessage`), run the per-language loop, and finish with the guaranteed
`finally` block. -/
def processLine (env : PLEnv) : LineResult :=
  let st0 : LoopState := ⟨[], none, 0, 0⟩
  match env.scriptR with
  | .error e => finishLine STATUS_FAILED (errMessage e) st0 env.cleanupR
  | .ok script =>
    match env.voicesR with
    | .error e => finishLine STATUS_FAILED (errMessage e) st0 env.cleanupR
    | .ok voices =>
      match env.langsR with
      | .error e => finishLine STATUS_FAILED (errMessage e) st0 env.cleanupR
      | .ok langs =>
        match runLangs env.confR env.ttsR env.dubR env.uploadR script voices
            langs 0 st0 with
        | (st, some e) => finishLine STATUS_FAILED (errMessage e) st env.cleanupR
        | (st, none) => finishLine STATUS_SUCCESS "" st env.cleanupR

/-- The worker's `run` entry point for one delivered message.  The base64 +
JSON decode of the payload happens before the `try` block, so a malformed
payload raises out of the function without touching the sheet; a decoded
payload leads to one status write at `row_num + 2` with `_process_line`'s
outcome.  Returns the emitted sheet writes and the HTTP-style result. -/
def workerRun (decoded : Except String Nat) (env : PLEnv) :
    List SheetWrite × Except String (String × Nat) :=
  match decoded with
  | .error e => ([], .error e)
  | .ok row_num =>
    let r := processLine env
    ([⟨row_num + 2, r.status, r.message⟩], .ok ("OK", 200))

/-! Helper lemmas about the worker model. -/

theorem finishLine_status (s m : String) (st : LoopState)
    (c : Except String Unit) : (finishLine s m st c).status = s := rfl

theorem finishLine_uploads (s m : String) (st : LoopState)
    (c : Except String Unit) : (finishLine s m st c).uploads = st.uploads := rfl

theorem finishLine_built (s m : String) (st : LoopState)
    (c : Except String Unit) : (finishLine s m st c).built = st.built := rfl

theorem finishLine_confCalls (s m : String) (st : LoopState)
    (c : Except String Unit) : (finishLine s m st c).confCalls = st.confCalls := rfl

theorem finishLine_message_ok (m : String) (st : LoopState)
    (c : Except String Unit) :
    (finishLine STATUS_SUCCESS m st c).message =
      String.intercalate "," st.uploads := by
  simp [finishLine, STATUS_SUCCESS, STATUS_FAILED]

theorem finishLine_message_failed (m : String) (st : LoopState)
    (c : Except String Unit) :
    (finishLine STATUS_FAILED m st c).message = m := by
  simp [finishLine]

theorem finishLine_cleanupCalls (s m : String) (st : LoopState)
    (c : Except String Unit) :
    (finishLine s m st c).cleanupCalls = if st.dubber.isSome then 1 else 0 := by
  cases hd : st.dubber <;> cases c <;> simp [finishLine, hd]

/-- The loop keeps `dubber` set exactly when at least one engine was built. -/
theorem runLangs_inv (conf : Nat → Except String Unit)
    (tts : Except String String) (dub : Nat → Except String Unit)
    (upl : Nat → Except String String) (script : List String)
    (voices : List (String × String)) :
    ∀ (langs : List String) (i : Nat) (st : LoopState),
      (st.dubber.isSome ↔ 0 < st.built) →
      ((runLangs conf tts dub upl script voices langs i st).1.dubber.isSome ↔
        0 < (runLangs conf tts dub upl script voices langs i st).1.built) := by
  intro langs
  induction langs with
  | nil => intro i st h; exact h
  | cons lang rest ih =>
    intro i st h
    simp only [runLangs]
    cases hc : conf i with
    | error e => simpa using h
    | ok _ =>
      cases ha : afterConf tts voices (dub i) (upl i) script lang with
      | error e => simp
      | ok p => exact ih (i + 1) _ (by simp)

/-- Shape of any `_process_line` run: some status, message and final loop
state fed into the guaranteed `finally` block, the final state satisfying
the dubber/built invariant; the cleanup oracle never influences the first
three. -/
theorem processLine_shape (env : PLEnv) :
    ∃ s m st, (st.dubber.isSome ↔ 0 < st.built)
      ∧ processLine env = finishLine s m st env.cleanupR
      ∧ ∀ c, processLine { env with cleanupR := c } = finishLine s m st c := by
  cases hs : env.scriptR with
  | error e =>
    exact ⟨STATUS_FAILED, errMessage e, ⟨[], none, 0, 0⟩, by simp,
      by simp [processLine, hs], fun c => by simp [processLine, hs]⟩
  | ok script =>
    cases hv : env.voicesR with
    | error e =>
      exact ⟨STATUS_FAILED, errMessage e, ⟨[], none, 0, 0⟩, by simp,
        by simp [processLine, hs, hv], fun c => by simp [processLine, hs, hv]⟩
    | ok voices =>
      cases hl : env.langsR with
      | error e =>
        exact ⟨STATUS_FAILED, errMessage e, ⟨[], none, 0, 0⟩, by simp,
          by simp [processLine, hs, hv, hl],
          fun c => by simp [processLine, hs, hv, hl]⟩
      | ok langs =>
        have hinv := runLangs_inv env.confR env.ttsR env.dubR env.uploadR
          script voices langs 0 ⟨[], none, 0, 0⟩ (by simp)
        rcases hr : runLangs env.confR env.ttsR env.dubR env.uploadR script
            voices langs 0 ⟨[], none, 0, 0⟩ with ⟨st, err⟩
        rw [hr] at hinv
        cases err with
        | none =>
          exact ⟨STATUS_SUCCESS, "", st, hinv,
            by simp [processLine, hs, hv, hl, hr],
            fun c => by simp [processLine, hs, hv, hl, hr]⟩
        | some e =>
          exact ⟨STATUS_FAILED, errMessage e, st, hinv,
            by simp [processLine, hs, hv, hl, hr],
            fun c => by simp [processLine, hs, hv, hl, hr]⟩

/-- When every per-language step of the loop succeeds, the loop finishes
without an exception and appends exactly one uploaded path per language,
in list order. -/
theorem runLangs_all_ok (conf : Nat → Except String Unit)
    (tts : Except String String) (dub : Nat → Except String Unit)
    (upl : Nat → Except String String) (script : List String)
    (voices : List (String × String)) (paths : Nat → String) :
    ∀ (langs : List String) (i : Nat) (st : LoopState),
      (∀ j, j < langs.length → conf (i + j) = .ok ()) →
      (∀ j, j < langs.length → dub (i + j) = .ok ()) →
      (∀ j, j < langs.length → upl (i + j) = .ok (paths (i + j))) →
      (script = [] ∨ ∃ t, tts = .ok t) →
      (∀ lang ∈ langs, (voices.lookup lang).isSome) →
      ∃ st2, runLangs conf tts dub upl script voices langs i st = (st2, none)
        ∧ st2.uploads =
            st.uploads ++ (List.range langs.length).map (fun j => paths (i + j)) := by
  intro langs
  induction langs with
  | nil => intro i st _ _ _ _ _; exact ⟨st, rfl, by simp⟩
  | cons lang rest ih =>
    intro i st hconf hdub hupl htts hvoices
    have hc0 : conf i = .ok () := by simpa using hconf 0 (by simp)
    have hd0 : dub i = .ok () := by simpa using hdub 0 (by simp)
    have hu0 : upl i = .ok (paths i) := by simpa using hupl 0 (by simp)
    have hafter : afterConf tts voices (dub i) (upl i) script lang
        = .ok (paths i) := by
      rcases script with _ | ⟨u, us⟩
      · simp [afterConf, hd0, hu0]
      · rcases htts with htts | ⟨t, htts⟩
        · exact absurd htts (by simp)
        · have hv0 : (voices.lookup lang).isSome := hvoices lang (by simp)
          rcases hlk : voices.lookup lang with _ | v
          · rw [hlk] at hv0; simp at hv0
          · simp [afterConf, htts, hlk, hd0, hu0]
    obtain ⟨st2, heq, hups⟩ := ih (i + 1)
      ⟨st.uploads ++ [paths i], some st.built, st.built + 1, st.confCalls + 1⟩
      (fun j hj => by
        have := hconf (j + 1) (by simpa using Nat.succ_lt_succ hj)
        rwa [show i + (j + 1) = i + 1 + j by omega] at this)
      (fun j hj => by
        have := hdub (j + 1) (by simpa using Nat.succ_lt_succ hj)
        rwa [show i + (j + 1) = i + 1 + j by omega] at this)
      (fun j hj => by
        have := hupl (j + 1) (by simpa using Nat.succ_lt_succ hj)
        rwa [show i + (j + 1) = i + 1 + j by omega] at this)
      htts
      (fun l hl => hvoices l (by simp [hl]))
    refine ⟨st2, ?_, ?_⟩
    · simpa [runLangs, hc0, hafter] using heq
    · rw [hups, List.append_assoc]
      congr 1
      simp only [List.length_cons]
      rw [List.range_succ_eq_map, List.map_cons, List.map_map,
        List.singleton_append]
      congr 1
      apply List.map_congr_left
      intro a _
      simp only [Function.comp_apply]
      congr 1
      omega

/-! Claims about the worker. -/

/-- C6: a worker invocation whose parses succeed and whose every
per-language step (configure+download, dub, build-name+upload) returns
normally, with TTS parameters parseable and a voice assigned to every
language whenever a non-empty script is used, ends with status `OK`, one
uploaded output path per target language in language-list order, and the
returned message equal to their comma-join. -/
theorem all_languages_ok_gives_joined_paths (env : PLEnv)
    (script : List String) (voices : List (String × String))
    (langs : List String) (paths : Nat → String)
    (hs : env.scriptR = .ok script) (hv : env.voicesR = .ok voices)
    (hl : env.langsR = .ok langs)
    (hconf : ∀ j, j < langs.length → env.confR j = .ok ())
    (hdub : ∀ j, j < langs.length → env.dubR j = .ok ())
    (hupl : ∀ j, j < langs.length → env.uploadR j = .ok (paths j))
    (htts : script = [] ∨ ∃ t, env.ttsR = .ok t)
    (hvoices : ∀ lang ∈ langs, (voices.lookup lang).isSome) :
    (processLine env).status = STATUS_SUCCESS
    ∧ (processLine env).uploads = (List.range langs.length).map paths
    ∧ (processLine env).uploads.length = langs.length
    ∧ (processLine env).message =
        String.intercalate "," ((List.range langs.length).map paths) := by
  obtain ⟨st2, heq, hups⟩ := runLangs_all_ok env.confR env.ttsR env.dubR
    env.uploadR script voices paths langs 0 ⟨[], none, 0, 0⟩
    (fun j hj => by simpa using hconf j hj)
    (fun j hj => by simpa using hdub j hj)
    (fun j hj => by simpa using hupl j hj)
    htts hvoices
  have hpl : processLine env = finishLine STATUS_SUCCESS "" st2 env.cleanupR := by
    simp [processLine, hs, hv, hl, heq]
  have hu : st2.uploads = (List.range langs.length).map paths := by
    simpa using hups
  rw [hpl, finishLine_status, finishLine_uploads, finishLine_message_ok, hu]
  exact ⟨rfl, rfl, by simp, rfl⟩

/-- A concrete successful two-language job: empty script (full-pipeline
mode), both languages dubbed and uploaded. -/
def envTwoLangs : PLEnv :=
  { scriptR := .ok []
    voicesR := .ok [("fr", "v1"), ("de", "v2")]
    langsR := .ok ["fr", "de"]
    ttsR := .ok "tts"
    confR := fun _ => .ok ()
    useElevenlabs := false
    dubR := fun _ => .ok ()
    uploadR := fun i => .ok ("gs://out/" ++ Nat.repr i)
    cleanupR := .ok () }

/-- C6 witness: the concrete two-language job ends with status `OK`. -/
theorem all_languages_ok_example :
    (processLine envTwoLangs).status = STATUS_SUCCESS :=
  (all_languages_ok_gives_joined_paths envTwoLangs []
      [("fr", "v1"), ("de", "v2")] ["fr", "de"]
      (fun i => "gs://out/" ++ Nat.repr i) rfl rfl rfl
      (fun _ _ => rfl) (fun _ _ => rfl) (fun _ _ => rfl)
      (Or.inl rfl) (by decide)).1

/-- C7 (amended): the `finally` block of `_process_line` runs exactly once,
but the engine clean-up hook it attempts runs exactly once only when at
least one engine was constructed (on the most recently constructed one);
when no engine exists the attempted call raises before any hook runs, so
zero engine clean-ups happen.  Any clean-up exception is swallowed and the
(status, message) outcome never depends on the clean-up result. -/
theorem cleanup_attempted_once_and_swallowed (env : PLEnv) :
    (processLine env).cleanupCalls ≤ 1
    ∧ ((processLine env).cleanupCalls = 1 ↔ 0 < (processLine env).built)
    ∧ ∀ c, (processLine { env with cleanupR := c }).status
            = (processLine env).status
        ∧ (processLine { env with cleanupR := c }).message
            = (processLine env).message := by
  obtain ⟨s, m, st, hinv, heq, hall⟩ := processLine_shape env
  refine ⟨?_, ?_, ?_⟩
  · rw [heq, finishLine_cleanupCalls]
    split <;> omega
  · rw [heq, finishLine_cleanupCalls, finishLine_built]
    split
    · rename_i h
      simp [hinv.mp h]
    · rename_i h
      have hnb : ¬ 0 < st.built := fun hb => h (hinv.mpr hb)
      simp [hnb]
  · intro c
    rw [heq, hall c]
    exact ⟨rfl, rfl⟩

/-- A worker job whose target-language list parses to the empty list: the
loop never runs and no engine is ever constructed. -/
def envNoLangs : PLEnv :=
  { scriptR := .ok []
    voicesR := .ok []
    langsR := .ok []
    ttsR := .ok "tts"
    confR := fun _ => .ok ()
    useElevenlabs := false
    dubR := fun _ => .ok ()
    uploadR := fun _ => .ok "gs://out/0"
    cleanupR := .ok () }

/-- C7 counterexample: in this invocation no engine is ever constructed, so
the engine clean-up hook runs zero times, not exactly once — the `finally`
block's `dubber.clean_up()` raises on `None` and is swallowed. -/
theorem no_engine_no_cleanup_call :
    (processLine envNoLangs).cleanupCalls = 0
    ∧ (processLine envNoLangs).status = STATUS_SUCCESS :=
  ⟨rfl, rfl⟩

/-- C10: a worker job whose script and voices parse and whose
`target_language` parses to the empty list returns `(OK, "")`, never enters
`_configure_dubber` (so downloads nothing and constructs no engine) and
uploads nothing. -/
theorem empty_target_list_returns_ok_empty (env : PLEnv)
    (script : List String) (voices : List (String × String))
    (hs : env.scriptR = .ok script) (hv : env.voicesR = .ok voices)
    (hl : env.langsR = .ok []) :
    (processLine env).status = STATUS_SUCCESS
    ∧ (processLine env).message = ""
    ∧ (processLine env).uploads = []
    ∧ (processLine env).built = 0
    ∧ (processLine env).confCalls = 0 := by
  have h : processLine env
      = finishLine STATUS_SUCCESS "" ⟨[], none, 0, 0⟩ env.cleanupR := by
    simp [processLine, hs, hv, hl, runLangs]
  rw [h]
  exact ⟨rfl, by rw [finishLine_message_ok]; rfl, rfl, rfl, rfl⟩

/-- C10 witness: the concrete empty-language job. -/
theorem empty_target_list_example :
    (processLine envNoLangs).message = ""
    ∧ (processLine envNoLangs).confCalls = 0 :=
  ⟨(empty_target_list_returns_ok_empty envNoLangs [] [] rfl rfl rfl).2.1,
    (empty_target_list_returns_ok_empty envNoLangs [] [] rfl rfl rfl).2.2.2.2⟩

/-! Claim C8: the FAILED-message fallback at both error boundaries. -/

/-- C8 (amended): at both the splitter's row boundary and the worker's job
boundary, the FAILED message is the exception text exactly when that text
is longer than one character (`len(str(e)) > 1`); an empty or
single-character text is replaced by the fixed sharing hint. -/
theorem failed_message_uses_hint_iff_short (e url : String)
    (tc : List (String × String)) (lc : Dict) (env : PLEnv)
    (hw : env.scriptR = .error e) :
    (processLines url tc (fun _ => .error e) [lc]).writes =
      [⟨2, STATUS_FAILED, if 1 < e.length then e else serviceAccountHint⟩]
    ∧ (processLine env).status = STATUS_FAILED
    ∧ (processLine env).message =
        (if 1 < e.length then e else serviceAccountHint) := by
  have hpl : processLine env
      = finishLine STATUS_FAILED (errMessage e) ⟨[], none, 0, 0⟩ env.cleanupR := by
    simp [processLine, hw]
  refine ⟨?_, ?_, ?_⟩
  · simp [processLines, processLinesFrom, errMessage]
  · rw [hpl, finishLine_status]
  · rw [hpl, finishLine_message_failed, errMessage]

/-- C8 witness: a two-character-plus error text is written verbatim. -/
theorem failed_message_example :
    (processLine { envNoLangs with scriptR := .error "boom" }).message =
      (if 1 < ("boom" : String).length then "boom" else serviceAccountHint) :=
  (failed_message_uses_hint_iff_short "boom" "url" [] [] _ rfl).2.2

/-- C8 counterexample: the exception text `"x"` is non-empty, yet the
written message is the hint, not `"x"` — the code tests `len > 1`, not
non-emptiness. -/
theorem one_char_error_gets_hint :
    (processLine { envNoLangs with scriptR := .error "x" }).message
      = serviceAccountHint
    ∧ "x" ≠ "" ∧ "x" ≠ serviceAccountHint := by
  refine ⟨by decide, by decide, by decide⟩

/-! Claim C1: end-to-end status writes for one dispatched row. -/

/-- Terminal statuses are `OK` and `FAILED` (`PROCESSING` is not). -/
def isTerminal (s : String) : Bool :=
  s == STATUS_SUCCESS || s == STATUS_FAILED

/-- How many of the given status writes carry a terminal status. -/
def terminalCount (ws : List SheetWrite) : Nat :=
  (ws.filter (fun w => isTerminal w.status)).length

/-- The four end-to-end outcomes of one dispatched row that C1 enumerates. -/
inductive RowOutcome where
  | success
  | publishFail (e : String)
  | workerFail (e : String)
  | malformed (e : String)

/-- All status writes for row 0 of a one-row configuration, across both
stages: the splitter processes the row (publishing fails exactly in the
`publishFail` outcome), then — when a payload was published — the worker
consumes it (`malformed`: the payload fails to decode; `workerFail`: the
decoded job fails inside `_process_line`; `success`: the job succeeds). -/
def rowPipeline (o : RowOutcome) : List SheetWrite :=
  let pub : Nat → Except String Unit :=
    match o with
    | .publishFail e => fun _ => .error e
    | _ => fun _ => .ok ()
  let split := processLines "url" [("DUBBING_CONFIG", "Jobs")] pub
    [[("video_url", SVal.s "bkt/in.mp4")]]
  let worker : List SheetWrite :=
    match o with
    | .publishFail _ => []
    | .malformed e => (workerRun (.error e) envTwoLangs).1
    | .workerFail e => (workerRun (.ok 0) { envTwoLangs with scriptR := .error e }).1
    | .success => (workerRun (.ok 0) envTwoLangs).1
  split.writes ++ worker

theorem isTerminal_processing : isTerminal STATUS_PROCESSING = false := by decide

theorem isTerminal_failed : isTerminal STATUS_FAILED = true := by decide

theorem isTerminal_ok : isTerminal STATUS_SUCCESS = true := by decide

/-- C1 (amended): on success, publish failure and worker processing failure
exactly one terminal status is written for the row across both stages; but
on a malformed payload the worker raises before its `try` block, so no
terminal status is ever written — the row keeps the splitter's
`PROCESSING`. -/
theorem one_terminal_status_except_malformed (e : String) :
    terminalCount (rowPipeline .success) = 1
    ∧ terminalCount (rowPipeline (.publishFail e)) = 1
    ∧ terminalCount (rowPipeline (.workerFail e)) = 1
    ∧ terminalCount (rowPipeline (.malformed e)) = 0 := by
  have hfail : (processLine { envTwoLangs with scriptR := .error e }).status
      = STATUS_FAILED := by
    simp only [processLine]
    rw [finishLine_status]
  refine ⟨by decide, ?_, ?_, by
    simp [rowPipeline, workerRun, processLines, processLinesFrom, terminalCount,
      isTerminal_processing]⟩
  · simp [rowPipeline, processLines, processLinesFrom, terminalCount,
      isTerminal_failed]
  · simp [rowPipeline, workerRun, processLines, processLinesFrom, terminalCount,
      isTerminal_processing, isTerminal_failed, hfail]

/-- C1 counterexample: with a malformed payload the dispatched row never
receives a terminal status — only the splitter's `PROCESSING` write exists. -/
theorem malformed_payload_writes_no_status :
    rowPipeline (.malformed "Invalid base64-encoded string")
      = [⟨2, STATUS_PROCESSING, ""⟩]
    ∧ terminalCount (rowPipeline (.malformed "Invalid base64-encoded string")) = 0 := by
  refine ⟨by decide, by decide⟩

/-! Claim C9: `_configure_dubber`'s field conversions. -/

/-- Python `needle in hay` on strings: substring containment. -/
def strContains (hay needle : String) : Bool :=
  (List.range (hay.length + 1)).any
    (fun i => needle.toList.isPrefixOf (hay.toList.drop i))

/-- Python truthiness of a string: any non-empty string is truthy, so a raw
`"False"` used as a boolean behaves as true. -/
def pyTruthy (s : String) : Bool := s != ""

/-- Python `str.lower()` (character-wise case folding). -/
def pyLower (s : String) : String := String.mk (s.data.map Char.toLower)

/-- The engine-constructor arguments of `Dubber(...)` as
`_configure_dubber` builds them.  Field types record which conversion the
code applies: `Int`/`Rat` fields go through `int(...)`/`float(...)`,
`Bool` fields through `.lower() == "true"` (or substring containment for
`use_elevenlabs`) — while `merge_utterances` and `clean_up` are passed
through as the raw configuration strings, with no boolean parse. -/
structure DubberArgs where
  input_file : String
  output_directory : String
  advertiser_name : String
  original_language : String
  target_language : String
  number_of_speakers : Int
  gemini_token : String
  hugging_face_token : String
  no_dubbing_phrases : List String
  diarization_instructions : String
  translation_instructions : String
  merge_utterances : String
  minimum_merge_threshold : Rat
  preferred_voices : List String
  adjust_speed : Bool
  vocals_volume_adjustment : Rat
  background_volume_adjustment : Rat
  clean_up : String
  gemini_model_name : String
  temperature : Rat
  top_p : Rat
  top_k : Int
  max_output_tokens : Int
  use_elevenlabs : Bool
  elevenlabs_token : String
  elevenlabs_clone_voices : Bool
  with_verification : Bool
deriving Repr, DecidableEq

/-- `_configure_dubber`: split the `video_url` into bucket and object path,
download the source video (external effect), and build the `Dubber(...)`
arguments.  `pyInt`/`pyFloat` are the `int(...)`/`float(...)` coercions and
`literalEvalList` is `ast.literal_eval` on a list field (each may raise);
they are consulted in the argument order of the `Dubber(...)` call.
`tool`/`line` are the tool and line configuration dicts. -/
def configureDubber (pyInt : String → Except String Int)
    (pyFloat : String → Except String Rat)
    (literalEvalList : String → Except String (List String))
    (tool line : String → String) (output_directory : String) :
    Except String DubberArgs := do
  let video_url := line "video_url"
  let file_name := String.intercalate "/" ((video_url.splitOn "/").drop 1)
  let download_file_path :=
    output_directory ++ "/" ++ ((file_name.splitOn "/").getLastD "")
  let number_of_speakers ← pyInt (line "number_of_speakers")
  let no_dubbing_phrases ← literalEvalList (line "no_dubbing_phrases")
  let minimum_merge_threshold ← pyFloat (line "minimum_merge_threshold")
  let preferred_voices ← literalEvalList (line "preferred_voice_family")
  let vocals_volume_adjustment ← pyFloat (line "vocals_volume_adjustment")
  let background_volume_adjustment ← pyFloat (line "background_volume_adjustment")
  let temperature ← pyFloat (line "gemini_temperature")
  let top_p ← pyFloat (line "gemini_top_p")
  let top_k ← pyInt (line "gemini_top_k")
  let max_output_tokens ← pyInt (line "gemini_maximum_output_tokens")
  pure { input_file := download_file_path
         output_directory := output_directory
         advertiser_name := line "campaign_name"
         original_language := line "original_language"
         target_language := line "target_language"
         number_of_speakers := number_of_speakers
         gemini_token := tool "AI_STUDIO_API_KEY"
         hugging_face_token := tool "HUGGING_FACE_ACCESS_TOKEN"
         no_dubbing_phrases := no_dubbing_phrases
         diarization_instructions := line "diarization_instructions"
         translation_instructions := line "translation_instructions"
         merge_utterances := line "merge_utterances"
         minimum_merge_threshold := minimum_merge_threshold
         preferred_voices := preferred_voices
         adjust_speed := pyLower (line "adjust_speed") == "true"
         vocals_volume_adjustment := vocals_volume_adjustment
         background_volume_adjustment := background_volume_adjustment
         clean_up := line "clean_up"
         gemini_model_name := line "gemini_model_name"
         temperature := temperature
         top_p := top_p
         top_k := top_k
         max_output_tokens := max_output_tokens
         use_elevenlabs := strContains (line "voice_provider") "ElevenLabs"
         elevenlabs_token := tool "ELEVEN_LABS_API_KEY"
         elevenlabs_clone_voices := pyLower (line "clone_original_voices") == "true"
         with_verification := pyLower (line "with_verification") == "true" }

/-- A row configuration carrying the default `"False"` strings for
`merge_utterances` and `clean_up` and an upper-case `"TRUE"` for
`adjust_speed`. -/
def lineFalseFlags : String → String := fun k =>
  if k = "merge_utterances" then "False"
  else if k = "clean_up" then "False"
  else if k = "adjust_speed" then "TRUE"
  else if k = "video_url" then "bkt/in.mp4"
  else ""

/-- C9: the boolean-typed settings `merge_utterances` and `clean_up` are
handed to the engine as the raw strings (here the default `"False"`,
which is truthy in any Python boolean use), not as the case-insensitive
parse (which would be `false`); `adjust_speed` and the other parsed
booleans do get the case-insensitive `.lower() == "true"` treatment. -/
theorem merge_utterances_passed_unparsed :
    ∃ args,
      configureDubber (fun _ => .ok 1) (fun _ => .ok 1) (fun _ => .ok [])
          (fun _ => "tok") lineFalseFlags "outdir" = .ok args
      ∧ args.merge_utterances = "False"
      ∧ args.clean_up = "False"
      ∧ pyTruthy args.merge_utterances = true
      ∧ pyTruthy args.clean_up = true
      ∧ (pyLower "False" == "true") = false
      ∧ args.adjust_speed = true
      ∧ args.elevenlabs_clone_voices = false := by
  refine ⟨_, rfl, by decide, by decide, by decide, by decide, by decide,
    by decide, by decide⟩

end Ariel
